import Mathlib

/-!
Verification of the FLX local-impact calculator
(`src/local_impact_calculator.py`).

The calculator has two parts:

* pure arithmetic (`retail_impact_base`, `local_impact_dollars`,
  `local_impact_share`, `summarize_retailer`), embedded here over `ℚ`
  (the real-number semantics of the Python float formulas);
* input validation (`RetailerInputs.__post_init__`), embedded over a
  Python-value model `PyVal` whose numeric part `PyNum` carries the
  IEEE special values NaN and plus or minus infinity, with Python's
  comparison semantics (every comparison involving NaN is false), since
  the validation behaviour on non-finite inputs depends on exactly
  those comparisons.
-/

namespace FLX

/-- Extended numeric value of a Python number as seen by the comparisons
in `__post_init__`: a finite value (rational), `+inf`, `-inf`, or NaN. -/
inductive PyNum where
  | fin (q : ℚ)
  | pinf
  | ninf
  | nan
deriving DecidableEq, Repr

/-- Python `<` on extended numeric values: any comparison with NaN is
false; `-inf` is below everything else, `+inf` above. -/
def PyNum.lt : PyNum → PyNum → Bool
  | .nan, _ => false
  | _, .nan => false
  | .ninf, .ninf => false
  | .ninf, _ => true
  | _, .ninf => false
  | .pinf, _ => false
  | .fin _, .pinf => true
  | .fin q, .fin r => decide (q < r)

/-- Python `<=` on extended numeric values: any comparison with NaN is
false; otherwise the usual extended-real order. -/
def PyNum.le : PyNum → PyNum → Bool
  | .nan, _ => false
  | _, .nan => false
  | .ninf, _ => true
  | _, .ninf => false
  | _, .pinf => true
  | .pinf, _ => false
  | .fin q, .fin r => decide (q ≤ r)

/-- Whether the extended numeric value is finite (neither infinite nor NaN). -/
def PyNum.isFinite : PyNum → Bool
  | .fin _ => true
  | _ => false

/-- Model of a Python value that can be passed as a `RetailerInputs`
field: booleans, ints and floats (the values `isinstance(v, (int, float))`
accepts — `bool` is a subclass of `int`), plus strings and `None` as
representative non-numeric values. -/
inductive PyVal where
  | bool (b : Bool)
  | int (n : ℤ)
  | float (f : PyNum)
  | str (s : String)
  | none
deriving DecidableEq, Repr

/-- The `isinstance(value, (int, float))` test of `__post_init__`:
true for `bool` (a subclass of `int`), `int` and `float` values. -/
def PyVal.isNumeric : PyVal → Bool
  | .bool _ => true
  | .int _ => true
  | .float _ => true
  | .str _ => false
  | .none => false

/-- Numeric value of a numeric `PyVal` (`True` counts as 1, `False` as 0).
Only consulted after the `isinstance` check has passed; the NaN returned
on non-numeric values is never observed. -/
def PyVal.toNum : PyVal → PyNum
  | .bool b => .fin (if b then 1 else 0)
  | .int n => .fin n
  | .float f => f
  | .str _ => .nan
  | .none => .nan

/-- Name of the runtime type, used in the `TypeError` message
(`type(value)!r`). -/
def PyVal.typeName : PyVal → String
  | .bool _ => "bool"
  | .int _ => "int"
  | .float _ => "float"
  | .str _ => "str"
  | .none => "NoneType"

/-- A raised Python exception from `__post_init__`. -/
inductive PyError where
  | typeError (msg : String)
  | valueError (msg : String)
deriving DecidableEq, Repr

/-- The stored fields of a successfully constructed `RetailerInputs`
dataclass instance (the dataclass stores the arguments as given; `name`
is never inspected by `__post_init__`). -/
structure RetailerInputsData where
  name : PyVal
  total_sales : PyVal
  taxes : PyVal
  shipping : PyVal
  local_rate : PyVal
  multiplier : PyVal
deriving DecidableEq, Repr

/-- Constructing `RetailerInputs(name, total_sales, taxes, shipping,
local_rate, multiplier)`: the dataclass stores the fields and then
`__post_init__` runs, first the `isinstance` loop over the five numeric
fields in order, then the bound checks in source order
(`total_sales < 0`, `taxes < 0`, `shipping < 0`,
`not 0 <= local_rate <= 1`, `multiplier <= 0`). -/
def mk_retailer_inputs (name total_sales taxes shipping local_rate multiplier : PyVal) :
    Except PyError RetailerInputsData :=
  if ¬ total_sales.isNumeric then
    .error (.typeError ("total_sales must be numeric, got " ++ total_sales.typeName))
  else if ¬ taxes.isNumeric then
    .error (.typeError ("taxes must be numeric, got " ++ taxes.typeName))
  else if ¬ shipping.isNumeric then
    .error (.typeError ("shipping must be numeric, got " ++ shipping.typeName))
  else if ¬ local_rate.isNumeric then
    .error (.typeError ("local_rate must be numeric, got " ++ local_rate.typeName))
  else if ¬ multiplier.isNumeric then
    .error (.typeError ("multiplier must be numeric, got " ++ multiplier.typeName))
  else if PyNum.lt total_sales.toNum (.fin 0) then
    .error (.valueError "total_sales cannot be negative")
  else if PyNum.lt taxes.toNum (.fin 0) then
    .error (.valueError "taxes cannot be negative")
  else if PyNum.lt shipping.toNum (.fin 0) then
    .error (.valueError "shipping cannot be negative")
  else if ¬ (PyNum.le (.fin 0) local_rate.toNum && PyNum.le local_rate.toNum (.fin 1)) then
    .error (.valueError "local_rate must be between 0 and 1")
  else if PyNum.le multiplier.toNum (.fin 0) then
    .error (.valueError "multiplier must be > 0")
  else
    .ok ⟨name, total_sales, taxes, shipping, local_rate, multiplier⟩

/-- Whether construction produced a record. -/
def resIsOk : Except PyError RetailerInputsData → Bool
  | .ok _ => true
  | .error _ => false

/-- Whether construction raised a `TypeError`. -/
def resIsTypeError : Except PyError RetailerInputsData → Bool
  | .error (.typeError _) => true
  | _ => false

/-- Whether construction raised a `ValueError`. -/
def resIsValueError : Except PyError RetailerInputsData → Bool
  | .error (.valueError _) => true
  | _ => false

/-- A validated `RetailerInputs` record in the real-number (rational)
semantics used by the calculation functions. -/
structure RetailerInputs where
  name : String
  total_sales : ℚ
  taxes : ℚ
  shipping : ℚ
  local_rate : ℚ
  multiplier : ℚ
deriving DecidableEq, Repr

/-- `retail_impact_base`: `total_sales - 0.5 * taxes - shipping`. -/
def retail_impact_base (total_sales taxes shipping : ℚ) : ℚ :=
  total_sales - (1 / 2) * taxes - shipping

/-- `local_impact_dollars`: `max(0.0, base) * local_rate * multiplier`
where `base = retail_impact_base(total_sales, taxes, shipping)`. -/
def local_impact_dollars (total_sales taxes shipping local_rate multiplier : ℚ) : ℚ :=
  max 0 (retail_impact_base total_sales taxes shipping) * local_rate * multiplier

/-- `local_impact_share`: `0.0` when `total_sales <= 0`, otherwise
`local_impact_dollars(...) / total_sales`. -/
def local_impact_share (total_sales taxes shipping local_rate multiplier : ℚ) : ℚ :=
  if total_sales ≤ 0 then 0
  else local_impact_dollars total_sales taxes shipping local_rate multiplier / total_sales

/-- Round to the nearest integer, ties to even: the semantics of
Python's built-in `round` on the exact value. -/
def roundHalfEven (q : ℚ) : ℤ :=
  if q - ⌊q⌋ < 1 / 2 then ⌊q⌋
  else if 1 / 2 < q - ⌊q⌋ then ⌊q⌋ + 1
  else if ⌊q⌋ % 2 = 0 then ⌊q⌋ else ⌊q⌋ + 1

/-- Python `round(q, ndigits)` on the exact value. -/
def pyRound (ndigits : ℕ) (q : ℚ) : ℚ :=
  (roundHalfEven (q * (10 : ℚ) ^ ndigits) : ℚ) / (10 : ℚ) ^ ndigits

/-- The summary dict produced by `summarize_retailer`, with one field per
dict key. -/
structure ImpactSummary where
  name : String
  total_sales : ℚ
  taxes : ℚ
  shipping : ℚ
  retail_impact_base : ℚ
  local_rate : ℚ
  multiplier : ℚ
  local_impact_dollars : ℚ
  local_impact_share : ℚ
deriving DecidableEq, Repr

/-- `summarize_retailer`: computes the base, the dollar impact and the
share (with the inline `total_sales > 0` guard of the source), and
assembles the dict, rounding dollar figures to 2 decimal places and the
share to 4. -/
def summarize_retailer (inputs : RetailerInputs) : ImpactSummary :=
  let base := retail_impact_base inputs.total_sales inputs.taxes inputs.shipping
  let li_dollars := local_impact_dollars inputs.total_sales inputs.taxes inputs.shipping
      inputs.local_rate inputs.multiplier
  let li_share := if 0 < inputs.total_sales then li_dollars / inputs.total_sales else 0
  { name := inputs.name
    total_sales := pyRound 2 inputs.total_sales
    taxes := pyRound 2 inputs.taxes
    shipping := pyRound 2 inputs.shipping
    retail_impact_base := pyRound 2 base
    local_rate := inputs.local_rate
    multiplier := inputs.multiplier
    local_impact_dollars := pyRound 2 li_dollars
    local_impact_share := pyRound 4 li_share }

/-- Rounding fixes zero. -/
lemma pyRound_zero (n : ℕ) : pyRound n 0 = 0 := by
  simp [pyRound, roundHalfEven]

/-- C5: for all (finite) inputs, `retail_impact_base` returns exactly
`total_sales - 0.5 * taxes - shipping` with no clamping, and the result
is negative for some non-negative inputs (shipping exceeding net sales
after half-taxes); as a total function it raises no error. -/
theorem retail_impact_base_formula :
    (∀ total_sales taxes shipping : ℚ,
      retail_impact_base total_sales taxes shipping =
        total_sales - (1 / 2) * taxes - shipping) ∧
    (∃ total_sales taxes shipping : ℚ,
      0 ≤ total_sales ∧ 0 ≤ taxes ∧ 0 ≤ shipping ∧
      retail_impact_base total_sales taxes shipping < 0) := by
  refine ⟨fun _ _ _ => rfl, 1000, 0, 5000, by norm_num, by norm_num, by norm_num, ?_⟩
  norm_num [retail_impact_base]

/-- C1: for non-negative sales, taxes and shipping, `local_rate ∈ [0,1]`
and `multiplier > 0`, `local_impact_dollars` returns
`max(0, retail_impact_base(...)) * local_rate * multiplier`, and the
result is non-negative (also when the unclamped base is negative). -/
theorem local_impact_dollars_clamp_nonneg
    (total_sales taxes shipping local_rate multiplier : ℚ)
    (hts : 0 ≤ total_sales) (htx : 0 ≤ taxes) (hsh : 0 ≤ shipping)
    (hlr0 : 0 ≤ local_rate) (hlr1 : local_rate ≤ 1) (hm : 0 < multiplier) :
    local_impact_dollars total_sales taxes shipping local_rate multiplier =
      max 0 (retail_impact_base total_sales taxes shipping) * local_rate * multiplier ∧
    0 ≤ local_impact_dollars total_sales taxes shipping local_rate multiplier := by
  refine ⟨rfl, ?_⟩
  exact mul_nonneg (mul_nonneg (le_max_left 0 _) hlr0) hm.le

/-- Witness for C1 at the clamp-triggering point
`total_sales = 1000, taxes = 0, shipping = 5000,
local_rate = 0.5, multiplier = 1.5` (base `= -4000 < 0`). -/
theorem local_impact_dollars_clamp_nonneg_witness :
    retail_impact_base 1000 0 5000 < 0 ∧
    0 ≤ local_impact_dollars 1000 0 5000 (1 / 2) (3 / 2) := by
  refine ⟨by norm_num [retail_impact_base], ?_⟩
  exact (local_impact_dollars_clamp_nonneg 1000 0 5000 (1 / 2) (3 / 2)
    (by norm_num) (by norm_num) (by norm_num)
    (by norm_num) (by norm_num) (by norm_num)).2

/-- C3: `local_impact_share` returns `0` whenever `total_sales ≤ 0`
(in particular at `total_sales = 0`, with no error), and returns
`local_impact_dollars(...) / total_sales` whenever `total_sales > 0`. -/
theorem local_impact_share_zero_guard
    (total_sales taxes shipping local_rate multiplier : ℚ) :
    (total_sales ≤ 0 →
      local_impact_share total_sales taxes shipping local_rate multiplier = 0) ∧
    (0 < total_sales →
      local_impact_share total_sales taxes shipping local_rate multiplier =
        local_impact_dollars total_sales taxes shipping local_rate multiplier /
          total_sales) := by
  constructor
  · intro h
    rw [local_impact_share, if_pos h]
  · intro h
    rw [local_impact_share, if_neg (not_le.mpr h)]

/-- Witness for C3: the zero-sales branch at `total_sales = 0` and the
positive branch at `total_sales = 2`. -/
theorem local_impact_share_zero_guard_witness :
    local_impact_share 0 5 7 (1 / 2) 2 = 0 ∧
    local_impact_share 2 0 0 (1 / 2) 2 = local_impact_dollars 2 0 0 (1 / 2) 2 / 2 :=
  ⟨(local_impact_share_zero_guard 0 5 7 (1 / 2) 2).1 le_rfl,
   (local_impact_share_zero_guard 2 0 0 (1 / 2) 2).2 (by norm_num)⟩

/-- C7: on the worked example `total_sales = 100000, taxes = 8000,
shipping = 5000, local_rate = 0.70, multiplier = 1.7` the base is
`91000`, the dollar impact is `108290.0` and the share is `1.0829`. -/
theorem flx_goods_case_values :
    retail_impact_base 100000 8000 5000 = 91000 ∧
    local_impact_dollars 100000 8000 5000 (7 / 10) (17 / 10) = 108290 ∧
    local_impact_share 100000 8000 5000 (7 / 10) (17 / 10) = 10829 / 10000 := by
  refine ⟨by norm_num [retail_impact_base], ?_, ?_⟩ <;>
    norm_num [local_impact_share, local_impact_dollars, retail_impact_base]

/-- C8: the share is not clamped above: a valid input with
`local_rate * multiplier > 1` makes `local_impact_share` exceed `1`. -/
theorem local_impact_share_exceeds_one :
    ∃ total_sales taxes shipping local_rate multiplier : ℚ,
      0 < total_sales ∧ 0 ≤ taxes ∧ 0 ≤ shipping ∧
      0 ≤ local_rate ∧ local_rate ≤ 1 ∧ 0 < multiplier ∧
      1 < local_rate * multiplier ∧
      1 < local_impact_share total_sales taxes shipping local_rate multiplier := by
  refine ⟨100000, 8000, 5000, 7 / 10, 17 / 10, by norm_num, by norm_num, by norm_num,
    by norm_num, by norm_num, by norm_num, by norm_num, ?_⟩
  norm_num [local_impact_share, local_impact_dollars, retail_impact_base]

/-- C6: for every valid record, `summarize_retailer` echoes the name and
rate/multiplier, rounds every dollar field to 2 decimal places, rounds
the share to 4 decimal places, the share field agrees with the
`local_impact_share` function (its inline `total_sales > 0` guard is the
same zero-sales guard), and the share field is `0` at zero sales. -/
theorem summarize_retailer_spec (r : RetailerInputs)
    (hts : 0 ≤ r.total_sales) (htx : 0 ≤ r.taxes) (hsh : 0 ≤ r.shipping)
    (hlr0 : 0 ≤ r.local_rate) (hlr1 : r.local_rate ≤ 1) (hm : 0 < r.multiplier) :
    summarize_retailer r =
      { name := r.name
        total_sales := pyRound 2 r.total_sales
        taxes := pyRound 2 r.taxes
        shipping := pyRound 2 r.shipping
        retail_impact_base := pyRound 2 (retail_impact_base r.total_sales r.taxes r.shipping)
        local_rate := r.local_rate
        multiplier := r.multiplier
        local_impact_dollars := pyRound 2 (local_impact_dollars r.total_sales r.taxes
          r.shipping r.local_rate r.multiplier)
        local_impact_share := pyRound 4 (local_impact_share r.total_sales r.taxes
          r.shipping r.local_rate r.multiplier) } ∧
    (r.total_sales = 0 → (summarize_retailer r).local_impact_share = 0) := by
  have hshare :
      (if 0 < r.total_sales then
        local_impact_dollars r.total_sales r.taxes r.shipping r.local_rate r.multiplier /
          r.total_sales
      else 0) =
      local_impact_share r.total_sales r.taxes r.shipping r.local_rate r.multiplier := by
    rw [local_impact_share]
    rcases le_or_lt r.total_sales 0 with h | h
    · rw [if_neg (not_lt.mpr h), if_pos h]
    · rw [if_pos h, if_neg (not_le.mpr h)]
  constructor
  · rw [summarize_retailer]
    simp only [hshare]
  · intro h0
    rw [summarize_retailer]
    simp only [h0, lt_irrefl, if_neg (lt_irrefl (0 : ℚ))]
    exact pyRound_zero 4

/-- Witness for C6 at the zero-sales record
`⟨"Z", 0, 0, 0, 0.5, 1.5⟩`: its summary's share field is `0`. -/
theorem summarize_retailer_spec_witness :
    (summarize_retailer ⟨"Z", 0, 0, 0, 1 / 2, 3 / 2⟩).local_impact_share = 0 :=
  (summarize_retailer_spec ⟨"Z", 0, 0, 0, 1 / 2, 3 / 2⟩
    (by norm_num) (by norm_num) (by norm_num)
    (by norm_num) (by norm_num) (by norm_num)).2 rfl

/-- C2 counterexample: `total_sales = +inf` is non-finite, yet
construction with otherwise valid fields succeeds — the claim that every
non-finite numeric field makes construction raise is false. -/
theorem mk_retailer_inputs_accepts_pinf_total_sales :
    PyNum.isFinite .pinf = false ∧
    resIsOk (mk_retailer_inputs (.str "FLX") (.float .pinf)
      (.float (.fin 8000)) (.float (.fin 5000))
      (.float (.fin (7 / 10))) (.float (.fin (17 / 10)))) = true := by
  constructor
  · rfl
  · norm_num [mk_retailer_inputs, PyVal.isNumeric, PyVal.toNum, PyNum.lt, PyNum.le, resIsOk]

/-- C2 amended: `__post_init__` checks only the bound comparisons, so a
non-finite value is rejected exactly when it fails one of them: a
non-finite `local_rate` always raises a `ValueError` (NaN fails both
sides of `0 <= local_rate <= 1`, the infinities fail one side), and
`-inf` in any of `total_sales`, `taxes`, `shipping` or `multiplier`
also raises a `ValueError` (it satisfies `< 0` and `<= 0`), while NaN
or `+inf` in `total_sales`, `taxes`, `shipping` or `multiplier` passes
validation and a record is produced. -/
theorem mk_retailer_inputs_nonfinite_behavior (f : PyNum) (hf : f.isFinite = false) :
    resIsValueError (mk_retailer_inputs (.str "FLX") (.float (.fin 100000))
      (.float (.fin 8000)) (.float (.fin 5000)) (.float f)
      (.float (.fin (17 / 10)))) = true ∧
    resIsOk (mk_retailer_inputs (.str "FLX") (.float .pinf) (.float (.fin 8000))
      (.float (.fin 5000)) (.float (.fin (7 / 10))) (.float (.fin (17 / 10)))) = true ∧
    resIsOk (mk_retailer_inputs (.str "FLX") (.float .nan) (.float (.fin 8000))
      (.float (.fin 5000)) (.float (.fin (7 / 10))) (.float (.fin (17 / 10)))) = true ∧
    resIsOk (mk_retailer_inputs (.str "FLX") (.float (.fin 100000)) (.float .pinf)
      (.float (.fin 5000)) (.float (.fin (7 / 10))) (.float (.fin (17 / 10)))) = true ∧
    resIsOk (mk_retailer_inputs (.str "FLX") (.float (.fin 100000)) (.float .nan)
      (.float (.fin 5000)) (.float (.fin (7 / 10))) (.float (.fin (17 / 10)))) = true ∧
    resIsOk (mk_retailer_inputs (.str "FLX") (.float (.fin 100000)) (.float (.fin 8000))
      (.float .pinf) (.float (.fin (7 / 10))) (.float (.fin (17 / 10)))) = true ∧
    resIsOk (mk_retailer_inputs (.str "FLX") (.float (.fin 100000)) (.float (.fin 8000))
      (.float .nan) (.float (.fin (7 / 10))) (.float (.fin (17 / 10)))) = true ∧
    resIsOk (mk_retailer_inputs (.str "FLX") (.float (.fin 100000)) (.float (.fin 8000))
      (.float (.fin 5000)) (.float (.fin (7 / 10))) (.float .pinf)) = true ∧
    resIsOk (mk_retailer_inputs (.str "FLX") (.float (.fin 100000)) (.float (.fin 8000))
      (.float (.fin 5000)) (.float (.fin (7 / 10))) (.float .nan)) = true ∧
    resIsValueError (mk_retailer_inputs (.str "FLX") (.float .ninf) (.float (.fin 8000))
      (.float (.fin 5000)) (.float (.fin (7 / 10))) (.float (.fin (17 / 10)))) = true ∧
    resIsValueError (mk_retailer_inputs (.str "FLX") (.float (.fin 100000)) (.float .ninf)
      (.float (.fin 5000)) (.float (.fin (7 / 10))) (.float (.fin (17 / 10)))) = true ∧
    resIsValueError (mk_retailer_inputs (.str "FLX") (.float (.fin 100000))
      (.float (.fin 8000)) (.float .ninf) (.float (.fin (7 / 10)))
      (.float (.fin (17 / 10)))) = true ∧
    resIsValueError (mk_retailer_inputs (.str "FLX") (.float (.fin 100000))
      (.float (.fin 8000)) (.float (.fin 5000)) (.float (.fin (7 / 10)))
      (.float .ninf)) = true := by
  cases f with
  | fin q => simp [PyNum.isFinite] at hf
  | pinf =>
    norm_num [mk_retailer_inputs, PyVal.isNumeric, PyVal.toNum, PyNum.lt, PyNum.le,
      resIsOk, resIsValueError]
  | ninf =>
    norm_num [mk_retailer_inputs, PyVal.isNumeric, PyVal.toNum, PyNum.lt, PyNum.le,
      resIsOk, resIsValueError]
  | nan =>
    norm_num [mk_retailer_inputs, PyVal.isNumeric, PyVal.toNum, PyNum.lt, PyNum.le,
      resIsOk, resIsValueError]

/-- Witness for the amended C2 at `f = NaN`: a NaN `local_rate` is
rejected with a `ValueError`. -/
theorem mk_retailer_inputs_nonfinite_behavior_witness :
    resIsValueError (mk_retailer_inputs (.str "FLX") (.float (.fin 100000))
      (.float (.fin 8000)) (.float (.fin 5000)) (.float .nan)
      (.float (.fin (17 / 10)))) = true :=
  (mk_retailer_inputs_nonfinite_behavior .nan rfl).1

/-- C4: any non-numeric value in any of the five numeric fields raises a
`TypeError` (with otherwise valid fields), and each bound violation
raises a `ValueError`: `total_sales = -1`, `taxes = -1`,
`shipping = -1`, `local_rate = 1.5`, `multiplier = 0`; in every failing
case no record is produced. -/
theorem mk_retailer_inputs_error_cases (v : PyVal) (hv : v.isNumeric = false) :
    resIsTypeError (mk_retailer_inputs (.str "X") v (.float (.fin 0))
      (.float (.fin 0)) (.float (.fin (1 / 2))) (.float (.fin (3 / 2)))) = true ∧
    resIsTypeError (mk_retailer_inputs (.str "X") (.float (.fin 0)) v
      (.float (.fin 0)) (.float (.fin (1 / 2))) (.float (.fin (3 / 2)))) = true ∧
    resIsTypeError (mk_retailer_inputs (.str "X") (.float (.fin 0))
      (.float (.fin 0)) v (.float (.fin (1 / 2))) (.float (.fin (3 / 2)))) = true ∧
    resIsTypeError (mk_retailer_inputs (.str "X") (.float (.fin 0))
      (.float (.fin 0)) (.float (.fin 0)) v (.float (.fin (3 / 2)))) = true ∧
    resIsTypeError (mk_retailer_inputs (.str "X") (.float (.fin 0))
      (.float (.fin 0)) (.float (.fin 0)) (.float (.fin (1 / 2))) v) = true ∧
    resIsValueError (mk_retailer_inputs (.str "X") (.int (-1)) (.float (.fin 0))
      (.float (.fin 0)) (.float (.fin (1 / 2))) (.float (.fin (3 / 2)))) = true ∧
    resIsValueError (mk_retailer_inputs (.str "X") (.float (.fin 0)) (.int (-1))
      (.float (.fin 0)) (.float (.fin (1 / 2))) (.float (.fin (3 / 2)))) = true ∧
    resIsValueError (mk_retailer_inputs (.str "X") (.float (.fin 0)) (.float (.fin 0))
      (.int (-1)) (.float (.fin (1 / 2))) (.float (.fin (3 / 2)))) = true ∧
    resIsValueError (mk_retailer_inputs (.str "X") (.float (.fin 0)) (.float (.fin 0))
      (.float (.fin 0)) (.float (.fin (3 / 2))) (.float (.fin (3 / 2)))) = true ∧
    resIsValueError (mk_retailer_inputs (.str "X") (.float (.fin 0)) (.float (.fin 0))
      (.float (.fin 0)) (.float (.fin (1 / 2))) (.int 0)) = true := by
  cases v with
  | bool b => simp [PyVal.isNumeric] at hv
  | int n => simp [PyVal.isNumeric] at hv
  | float f => simp [PyVal.isNumeric] at hv
  | str s =>
    norm_num [mk_retailer_inputs, PyVal.isNumeric, PyVal.toNum, PyNum.lt, PyNum.le,
      resIsTypeError, resIsValueError]
  | none =>
    norm_num [mk_retailer_inputs, PyVal.isNumeric, PyVal.toNum, PyNum.lt, PyNum.le,
      resIsTypeError, resIsValueError]

/-- Witness for C4 at the non-numeric value `v = "oops"` (a string). -/
theorem mk_retailer_inputs_error_cases_witness :
    resIsTypeError (mk_retailer_inputs (.str "X") (.str "oops") (.float (.fin 0))
      (.float (.fin 0)) (.float (.fin (1 / 2))) (.float (.fin (3 / 2)))) = true :=
  (mk_retailer_inputs_error_cases (.str "oops") rfl).1

/-- C9 counterexample: the empty string is not a non-empty string, yet
construction with `name = ""` (and valid numeric fields) succeeds — the
claimed name validation does not exist in the code. -/
theorem mk_retailer_inputs_accepts_empty_name :
    "".length = 0 ∧
    resIsOk (mk_retailer_inputs (.str "") (.float (.fin 100000))
      (.float (.fin 8000)) (.float (.fin 5000))
      (.float (.fin (7 / 10))) (.float (.fin (17 / 10)))) = true := by
  constructor
  · rfl
  · norm_num [mk_retailer_inputs, PyVal.isNumeric, PyVal.toNum, PyNum.lt, PyNum.le, resIsOk]

/-- C9 amended: `__post_init__` never inspects `name`, so construction
succeeds for every `name` value whatsoever (empty string, non-string)
whenever the five numeric fields pass their checks; the non-empty-string
reading of `name` is a documented convention, not an enforced invariant. -/
theorem mk_retailer_inputs_ignores_name (name : PyVal) :
    resIsOk (mk_retailer_inputs name (.float (.fin 100000))
      (.float (.fin 8000)) (.float (.fin 5000))
      (.float (.fin (7 / 10))) (.float (.fin (17 / 10)))) = true := by
  norm_num [mk_retailer_inputs, PyVal.isNumeric, PyVal.toNum, PyNum.lt, PyNum.le, resIsOk]

/-- C10: booleans pass the `isinstance(value, (int, float))` check
(`bool` subclasses `int`), so `total_sales = True` with otherwise valid
fields constructs successfully, raising neither error. -/
theorem mk_retailer_inputs_accepts_bool :
    PyVal.isNumeric (.bool true) = true ∧
    resIsOk (mk_retailer_inputs (.str "FLX") (.bool true)
      (.float (.fin 8000)) (.float (.fin 5000))
      (.float (.fin (7 / 10))) (.float (.fin (17 / 10)))) = true := by
  constructor
  · rfl
  · norm_num [mk_retailer_inputs, PyVal.isNumeric, PyVal.toNum, PyNum.lt, PyNum.le, resIsOk]

end FLX
